import Mathlib

/-!
Verification development for the `pylo` logging module
(`src/pylo/logger.py`): a shallow embedding of the module's data model
and operations, followed by theorems about its behaviour.

The module wraps the Python standard `logging` facility:
`get_logger(name)` resolves a name (possibly from the caller's frame),
looks the logger up in the process-wide registry, and on first
configuration resolves `LOG_LEVEL` / `LOG_FILE` from the environment,
prepares the log directory, and attaches one colored console handler
(with message truncation) and one plain UTF-8 file handler.
-/

namespace Pylo

/-- Python exceptions that the embedded code can raise. `systemExit` is the
fatal, process-terminating outcome (`raise SystemExit(...)`), kept distinct
from recoverable exceptions such as `valueError` and `osError`. -/
inductive PyErr where
  | systemExit (msg : String)
  | valueError (msg : String)
  | typeError (msg : String)
  | osError (msg : String)
  | fileExists (msg : String)
deriving DecidableEq, Repr

/-- Rendering of an exception as interpolated into an f-string
(`f"Failed to create directory: \x7bexc\x7d"`). -/
def PyErr.text : PyErr → String
  | .systemExit m => m
  | .valueError m => m
  | .typeError m => m
  | .osError m => m
  | .fileExists m => m

/-- The single-quote character Python `repr` puts around strings. -/
def pyQuote : String := String.mk [Char.ofNat 39]

/-- Python `%r` applied to a string value (adequate for strings without
embedded quotes or escape-worthy characters, the only strings the module
ever feeds it). -/
def pyReprStr (s : String) : String := pyQuote ++ s ++ pyQuote

/-- Association-list lookup (model of dict lookup keyed by decidable
equality). -/
def alookup {α β : Type} [DecidableEq α] : List (α × β) → α → Option β
  | [], _ => none
  | (k, v) :: rest, n => if k = n then some v else alookup rest n

/-- Replace the binding of key `n` (first occurrence) by `v`, appending a
fresh binding when the key is absent (model of dict assignment). -/
def aupdate {α β : Type} [DecidableEq α] : List (α × β) → α → β → List (α × β)
  | [], n, v => [(n, v)]
  | (k, w) :: rest, n, v =>
      if k = n then (k, v) :: rest else (k, w) :: aupdate rest n v

/-! ### `os.path` primitives (external collaborators, modelled from the
POSIX path semantics the code relies on) -/

/-- `os.path.dirname`: everything up to (and excluding) the last path
component; trailing slashes of the head are stripped unless the head
consists only of slashes. -/
def dirname (p : String) : String :=
  let head := (p.data.reverse.dropWhile (fun c => c ≠ '/')).reverse
  if head.all (fun c => c = '/') then String.mk head
  else String.mk (head.reverse.dropWhile (fun c => c = '/')).reverse

/-- `os.path.basename`: everything after the last `/`. -/
def basename (p : String) : String :=
  String.mk (p.data.reverse.takeWhile (fun c => c ≠ '/')).reverse

/-- The chain of directories `os.makedirs` creates for `d`: all ancestors
of `d` (via `dirname`) followed by `d` itself.  Fuel bounds the recursion;
`d.length + 1` is always sufficient since `dirname` shortens any argument
that still has a non-slash character. -/
def makedirsChain : Nat → String → List String
  | 0, _ => []
  | fuel + 1, d => if d = "" then [] else makedirsChain fuel (dirname d) ++ [d]

/-- `os.makedirs(d, exist_ok)` over a filesystem modelled as the list of
existing directories.  `fault d` injects an OS-level creation failure
(permissions, read-only filesystem, ...).  Without `exist_ok`, an already
existing directory is an error; the source always passes
`exist_ok=True`. -/
def makedirs (fault : String → Bool) (fs : List String) (d : String)
    (exist_ok : Bool) : Except PyErr (List String) :=
  if fault d then .error (.osError ("cannot create " ++ d))
  else if d ∈ fs ∧ exist_ok = false then
    .error (.fileExists ("File exists: " ++ d))
  else .ok (fs ++ makedirsChain (d.length + 1) d)

/-- `try_create_dir(path)` from the source: extract the directory portion,
create it (with all ancestors, tolerating existence) when non-empty, and
convert any creation failure into `SystemExit` with a descriptive
message. -/
def try_create_dir (fault : String → Bool) (fs : List String)
    (path : String) : Except PyErr (List String) :=
  let directory := dirname path
  if directory ≠ "" then
    match makedirs fault fs directory true with
    | .ok fs1 => .ok fs1
    | .error exc =>
        .error (.systemExit ("Failed to create directory: " ++ exc.text))
  else .ok fs

/-! ### Timestamps (`time.strftime` with `DATE_FORMAT`) -/

/-- A broken-down local time, as captured in a log record. -/
structure DateTime where
  year : Nat
  month : Nat
  day : Nat
  hour : Nat
  minute : Nat
  second : Nat
deriving DecidableEq, Repr

/-- Two-digit zero-padded decimal rendering (`%m`, `%d`, `%H`, `%M`, `%S`). -/
def pad2 (n : Nat) : String :=
  String.mk [Nat.digitChar (n / 10 % 10), Nat.digitChar (n % 10)]

/-- Four-digit zero-padded decimal rendering (`%Y`, for years below 10000). -/
def pad4 (n : Nat) : String :=
  String.mk [Nat.digitChar (n / 1000 % 10), Nat.digitChar (n / 100 % 10),
             Nat.digitChar (n / 10 % 10), Nat.digitChar (n % 10)]

/-- `DATE_FORMAT = "%Y-%m-%d %H:%M:%S"` applied to a time: the only date
format the module ever uses. -/
def formatDate (t : DateTime) : String :=
  pad4 t.year ++ "-" ++ pad2 t.month ++ "-" ++ pad2 t.day ++ " " ++
    pad2 t.hour ++ ":" ++ pad2 t.minute ++ ":" ++ pad2 t.second

/-! ### Log records and `%`-style formatting -/

/-- A `logging.LogRecord`, restricted to the attributes the module's
format strings consume.  `msg`/`args` follow Python: `getMessage()` is
`msg % args` when `args` is present, else `msg` itself. -/
structure LogRecord where
  name : String
  levelno : Nat
  levelname : String
  funcName : String
  created : DateTime
  msg : String
  args : Option (List String)
deriving DecidableEq, Repr

/-- `%s`-substitution of positional arguments into a message, the part of
Python `str.__mod__` that log messages use.  Fuel bounds the scan; one
unit per consumed character suffices. -/
def percentArgsAux : Nat → List Char → List String → List Char
  | 0, cs, _ => cs
  | _ + 1, [], _ => []
  | fuel + 1, '%' :: 's' :: rest, a :: rest_args =>
      a.data ++ percentArgsAux fuel rest rest_args
  | fuel + 1, c :: rest, as => c :: percentArgsAux fuel rest as

/-- `record.getMessage()`: `msg % args` if `args` else `msg`. -/
def LogRecord.getMessage (r : LogRecord) : String :=
  match r.args with
  | none => r.msg
  | some as => String.mk (percentArgsAux r.msg.data.length r.msg.data as)

/-- Value of a `%(key)s` conversion for a record, as
`logging.Formatter.format` supplies it (`message` is the computed
`getMessage()`, `asctime` the formatted creation time). -/
def fieldValue (r : LogRecord) : String → Option String
  | "levelname" => some r.levelname
  | "asctime" => some (formatDate r.created)
  | "name" => some r.name
  | "funcName" => some r.funcName
  | "message" => some r.getMessage
  | _ => none

/-- Scanner for `%(key)s` conversions in a format string.  Unknown keys
(never produced by this module's format strings) are left verbatim.  Fuel
bounds the scan; one unit per step, each step consuming at least one
character, so the character count suffices. -/
def substAux (r : LogRecord) : Nat → List Char → List Char
  | 0, cs => cs
  | _ + 1, [] => []
  | fuel + 1, '%' :: '(' :: rest =>
      let key := rest.takeWhile (fun c => c ≠ ')')
      match rest.dropWhile (fun c => c ≠ ')') with
      | ')' :: 's' :: tail =>
          match fieldValue r (String.mk key) with
          | some v => v.data ++ substAux r fuel tail
          | none => '%' :: '(' :: key ++ ')' :: 's' :: substAux r fuel tail
      | _ => '%' :: '(' :: substAux r fuel rest
  | fuel + 1, c :: rest => c :: substAux r fuel rest

/-- `logging.Formatter(fmt, DATE_FORMAT).format(record)`: `%`-substitution
of the record's attributes into `fmt`. -/
def applyFmt (fmt : String) (r : LogRecord) : String :=
  String.mk (substAux r fmt.data.length fmt.data)

/-- `BASE_FORMAT` from the source. -/
def BASE_FORMAT : String :=
  "%(levelname)s (%(asctime)s) [name: %(name)s func: %(funcName)s] %(message)s"

/-! ### `ASCIIFormatter` (console formatter with colors and truncation) -/

namespace ASCIIFormatter

/-- Maximum length for the message portion of the log. -/
def max_message_length : Nat := 100

/-- ANSI escape code used for DEBUG. -/
def grey : String := "\x1b[38;21m"

/-- ANSI escape code used for INFO. -/
def blue : String := "\x1b[34;01m"

/-- ANSI escape code used for WARNING. -/
def yellow : String := "\x1b[33;01m"

/-- ANSI escape code used for ERROR. -/
def red : String := "\x1b[31;01m"

/-- ANSI escape code used for CRITICAL. -/
def bold_red : String := "\x1b[31;1m"

/-- ANSI reset code. -/
def reset : String := "\x1b[0m"

/-- `FORMATS`: map from each logging level number to its color-coded
format string (`logging.DEBUG` = 10, `INFO` = 20, `WARNING` = 30,
`ERROR` = 40, `CRITICAL` = 50). -/
def FORMATS : List (Nat × String) :=
  [(10, grey ++ BASE_FORMAT ++ reset),
   (20, blue ++ BASE_FORMAT ++ reset),
   (30, yellow ++ BASE_FORMAT ++ reset),
   (40, red ++ BASE_FORMAT ++ reset),
   (50, bold_red ++ BASE_FORMAT ++ reset)]

/-- `ASCIIFormatter.format(record)`.  The method works on a shallow copy
(`copy.copy(record)`) and mutates only the copy, so the pair returned here
is the rendered console line together with the state of the *original*
record after the call (unchanged, because all writes target the copy). -/
def format (record : LogRecord) : String × LogRecord :=
  let record_copy := record
  let original_message := record_copy.getMessage
  let record_copy :=
    if original_message.length > max_message_length then
      { record_copy with
          msg := original_message.take max_message_length ++ "...",
          args := none }
    else record_copy
  let log_fmt := (alookup FORMATS record_copy.levelno).getD BASE_FORMAT
  (applyFmt log_fmt record_copy, record)

end ASCIIFormatter

/-! ### Handlers, loggers and the process-wide registry -/

/-- The kind of an attached handler.  `stream` is the console
(`logging.StreamHandler()`), `file` a `logging.FileHandler` with its
filename and encoding; `custom` stands for any handler attached by code
outside this module. -/
inductive HandlerKind where
  | stream
  | file (filename : String) (encoding : String)
  | custom (desc : String)
deriving DecidableEq, Repr

/-- The formatter installed on a handler: the module's `ASCIIFormatter`,
or a plain `logging.Formatter(fmt, datefmt)`. -/
inductive FormatterCfg where
  | ascii
  | plain (fmt : String) (datefmt : String)
deriving DecidableEq, Repr

/-- An attached handler (sink): kind, severity threshold, formatter. -/
structure Handler where
  kind : HandlerKind
  level : Nat
  formatter : FormatterCfg
deriving DecidableEq, Repr

/-- Whether a handler is the console (stream) sink. -/
def Handler.isStream (h : Handler) : Bool :=
  match h.kind with
  | .stream => true
  | _ => false

/-- Whether a handler is a file sink. -/
def Handler.isFile (h : Handler) : Bool :=
  match h.kind with
  | .file _ _ => true
  | _ => false

/-- A `logging.Logger`: name, effective level and attached handlers.
A freshly created logger has level `NOTSET` (0) and no handlers. -/
structure Logger where
  name : String
  level : Nat
  handlers : List Handler
deriving DecidableEq, Repr

/-- The process environment as far as the module reads it. -/
structure Env where
  LOG_LEVEL : Option String
  LOG_FILE : Option String
deriving DecidableEq, Repr

/-- Observable side effects of a `get_logger` call, in order. -/
inductive Effect where
  | envRead (key : String)
  | mkdir (dir : String)
deriving DecidableEq, Repr

/-- The process-wide mutable state: the logging manager's name → logger
registry and the filesystem (set of existing directories). -/
structure LoggingState where
  loggers : List (String × Logger)
  fs : List String
deriving DecidableEq, Repr

/-! ### `logging` module internals used by level resolution -/

/-- The value of an uppercase attribute of the Python `logging` module:
a level integer, a string constant, or a value of another type
(identified here by the attribute's name; the only such attribute is the
`_STYLES` dict). -/
inductive LoggingAttr where
  | levelInt (n : Nat)
  | strAttr (s : String)
  | dictAttr (nm : String)
deriving DecidableEq, Repr

/-- All-uppercase attributes of the `logging` module (the eight level
constants plus the `BASIC_FORMAT` string and the `_STYLES` dict).  Only
these can be hit by `getattr(logging, value.upper(), ...)`, since
`upper()` yields an all-uppercase string and attribute lookup is
case-sensitive. -/
def loggingUppercaseAttrs : List (String × LoggingAttr) :=
  [("CRITICAL", .levelInt 50), ("FATAL", .levelInt 50),
   ("ERROR", .levelInt 40), ("WARNING", .levelInt 30), ("WARN", .levelInt 30),
   ("INFO", .levelInt 20), ("DEBUG", .levelInt 10), ("NOTSET", .levelInt 0),
   ("BASIC_FORMAT", .strAttr "%(levelname)s:%(name)s:%(message)s"),
   ("_STYLES", .dictAttr "_STYLES")]

/-- `getattr(logging, s, logging.DEBUG)`. -/
def getattrLoggingD (s : String) : LoggingAttr :=
  (alookup loggingUppercaseAttrs s).getD (.levelInt 10)

/-- `logging._nameToLevel`, consulted by `setLevel` for string levels. -/
def nameToLevel : List (String × Nat) :=
  [("CRITICAL", 50), ("FATAL", 50), ("ERROR", 40), ("WARN", 30),
   ("WARNING", 30), ("INFO", 20), ("DEBUG", 10), ("NOTSET", 0)]

/-- Python `str.upper()` (character-wise uppercasing; the module only
ever feeds it strings whose relevant characters are ASCII). -/
def pyUpper (s : String) : String := String.mk (s.data.map Char.toUpper)

/-- `logging._checkLevel`, as invoked by `Logger.setLevel` /
`Handler.setLevel`: integers pass through, strings must name a level or
`ValueError ("Unknown level: %r" % level)` is raised, and any other value
raises `TypeError` (whose message renders the value with `%r`; the model
stands the attribute's name in for that rendering). -/
def checkLevel : LoggingAttr → Except PyErr Nat
  | .levelInt n => .ok n
  | .strAttr s =>
      match alookup nameToLevel s with
      | some n => .ok n
      | none => .error (.valueError ("Unknown level: " ++ pyReprStr s))
  | .dictAttr nm =>
      .error (.typeError ("Level not an integer or a valid string: " ++ nm))

/-- Level resolution exactly as `get_logger` performs it:
`getattr(logging, os.getenv("LOG_LEVEL", "DEBUG").upper(), logging.DEBUG)`
followed by `setLevel`'s check. -/
def resolved_level (v : Option String) : Except PyErr Nat :=
  checkLevel (getattrLoggingD (pyUpper (v.getD "DEBUG")))

/-! ### `get_logger` -/

/-- The console handler built by `get_logger`:
`StreamHandler` at the resolved level with an `ASCIIFormatter`. -/
def consoleHandlerDef (lvl : Nat) : Handler :=
  { kind := .stream, level := lvl, formatter := .ascii }

/-- The file handler built by `get_logger`: `FileHandler(LOG_FILE,
encoding="utf-8")` at the resolved level with a plain
`Formatter(BASE_FORMAT, DATE_FORMAT)`. -/
def fileHandlerDef (lvl : Nat) (logfile : String) : Handler :=
  { kind := .file logfile "utf-8", level := lvl,
    formatter := .plain BASE_FORMAT "%Y-%m-%d %H:%M:%S" }

/-- Name resolution at the top of `get_logger`: an empty `name` is
replaced by the base filename of the caller's source file
(`inspect.currentframe().f_back`, modelled as `callerFile`), or by the
module's `__name__` (`"pylo.logger"`) when frame metadata is
unavailable. -/
def resolve_name (name : String) (callerFile : Option String) : String :=
  if name = "" then
    match callerFile with
    | some f => basename f
    | none => "pylo.logger"
  else name

/-- First-time configuration of a logger (the body of
`if not logger.handlers:`): resolve `LOG_LEVEL`, set the logger's level,
resolve `LOG_FILE`, prepare its directory, then attach the console and
file handlers.  Returns the configured logger, the updated filesystem and
the trace of observable effects. -/
def configure_logger (env : Env) (fault : String → Bool) (logger : Logger)
    (fs : List String) : Except PyErr (Logger × List String × List Effect) :=
  match resolved_level env.LOG_LEVEL with
  | .error e => .error e
  | .ok lvl =>
      let logger := { logger with level := lvl }
      let logfile := env.LOG_FILE.getD "combined.log"
      match try_create_dir fault fs logfile with
      | .error e => .error e
      | .ok fs1 =>
          let logger :=
            { logger with handlers := logger.handlers ++ [consoleHandlerDef lvl] }
          let logger :=
            { logger with handlers := logger.handlers ++ [fileHandlerDef lvl logfile] }
          .ok (logger, fs1,
            [.envRead "LOG_LEVEL", .envRead "LOG_FILE"] ++
              (if dirname logfile ≠ "" then [.mkdir (dirname logfile)] else []))

/-- `get_logger(name)`: resolve the name, fetch or create the logger in
the process-wide registry, and run first-time configuration only when the
logger has no handlers.  Errors (`SystemExit` from directory creation,
`ValueError` from a non-level string) propagate to the caller. -/
def get_logger (env : Env) (fault : String → Bool)
    (callerFile : Option String) (name : String) (st : LoggingState) :
    Except PyErr (Logger × LoggingState × List Effect) :=
  let n := resolve_name name callerFile
  let logger := (alookup st.loggers n).getD { name := n, level := 0, handlers := [] }
  if logger.handlers = [] then
    match configure_logger env fault logger st.fs with
    | .error e => .error e
    | .ok (lg, fs1, tr) =>
        .ok (lg, { loggers := aupdate st.loggers n lg, fs := fs1 }, tr)
  else
    .ok (logger, { loggers := aupdate st.loggers n logger, fs := st.fs }, [])

/-- `k` successive calls of `get_logger` with the same arguments,
collecting the returned loggers in order. -/
def callN (env : Env) (fault : String → Bool) (callerFile : Option String)
    (name : String) : Nat → LoggingState →
    Except PyErr (List Logger × LoggingState)
  | 0, st => .ok ([], st)
  | k + 1, st =>
      match get_logger env fault callerFile name st with
      | .error e => .error e
      | .ok (lg, st1, _) =>
          match callN env fault callerFile name k st1 with
          | .error e => .error e
          | .ok (lgs, st2) => .ok (lg :: lgs, st2)

/-! ### Record emission (`Logger.callHandlers`) -/

/-- `handler.format(record)`: the rendered line together with the state of
the shared record after the call (the `ASCIIFormatter` copies before
mutating; a plain `Formatter` does not touch `msg`/`args`). -/
def Handler.fmtRecord (h : Handler) (r : LogRecord) : String × LogRecord :=
  match h.formatter with
  | .ascii => ASCIIFormatter.format r
  | .plain fmt _ => (applyFmt fmt r, r)

/-- `handler.handle(record)` as called per-record: emit (format plus the
`"\n"` terminator) when the record's level reaches the handler's
threshold. -/
def Handler.emit (h : Handler) (r : LogRecord) :
    Option (String × LogRecord) :=
  if h.level ≤ r.levelno then
    let (line, r1) := h.fmtRecord r
    some (line ++ "\n", r1)
  else none

/-- `Logger.callHandlers`: the record object is passed through the
handlers in order; each handler at or below the record's level emits a
line, and any mutation it performed on the record would be seen by the
handlers after it. -/
def callHandlers : List Handler → LogRecord → List String × LogRecord
  | [], r => ([], r)
  | h :: rest, r =>
      match h.emit r with
      | none => callHandlers rest r
      | some (line, r1) =>
          let (lines, r2) := callHandlers rest r1
          (line :: lines, r2)

/-! ### Spec-side renderings, for comparison with the embedded code

The definitions in this section follow the wording of the specification
(format template, truncation policy, color table, timestamp shape); the
theorems below relate them to the code embedded above. -/

/-- The spec's truncation policy: a body over 100 characters is cut to its
first 100 characters plus an ellipsis marker; otherwise unmodified. -/
def truncatePolicy (m : String) : String :=
  if m.length > 100 then m.take 100 ++ "..." else m

/-- The spec's line template
`LEVEL (YYYY-MM-DD HH:MM:SS) [name: NAME func: FUNCTION] MESSAGE`,
instantiated with a record's attributes and a given message body. -/
def renderBase (r : LogRecord) (body : String) : String :=
  r.levelname ++ " (" ++ formatDate r.created ++ ") [name: " ++ r.name ++
    " func: " ++ r.funcName ++ "] " ++ body

/-- The color prefix the spec assigns to each level number (empty for
levels outside the five standard ones, which fall back to the uncolored
base format). -/
def colorOfLevel (n : Nat) : String :=
  if n = 10 then ASCIIFormatter.grey
  else if n = 20 then ASCIIFormatter.blue
  else if n = 30 then ASCIIFormatter.yellow
  else if n = 40 then ASCIIFormatter.red
  else if n = 50 then ASCIIFormatter.bold_red
  else ""

/-- The reset suffix: present exactly for the five standard levels. -/
def resetOfLevel (n : Nat) : String :=
  if n = 10 ∨ n = 20 ∨ n = 30 ∨ n = 40 ∨ n = 50 then ASCIIFormatter.reset
  else ""

/-- Whether an outcome is a raised `TypeError`. -/
def raisesTypeError {α : Type} : Except PyErr α → Bool
  | .error (.typeError _) => true
  | _ => false

/-- Whether a string has the shape `YYYY-MM-DD HH:MM:SS`. -/
def timestampShape (s : String) : Bool :=
  match s.data with
  | [y1, y2, y3, y4, s1, mo1, mo2, s2, d1, d2, s3,
     h1, h2, s4, mi1, mi2, s5, se1, se2] =>
      y1.isDigit && y2.isDigit && y3.isDigit && y4.isDigit && s1 = '-' &&
      mo1.isDigit && mo2.isDigit && s2 = '-' && d1.isDigit && d2.isDigit &&
      s3 = ' ' && h1.isDigit && h2.isDigit && s4 = ':' &&
      mi1.isDigit && mi2.isDigit && s5 = ':' && se1.isDigit && se2.isDigit
  | _ => false

/-- Split a character list into the groups separated by `;`. -/
def splitSemis : List Char → List (List Char)
  | [] => [[]]
  | ';' :: rest => [] :: splitSemis rest
  | c :: rest =>
      match splitSemis rest with
      | [] => [[c]]
      | g :: gs => (c :: g) :: gs

/-- Parse one SGR parameter: a non-empty digit group, read as decimal
(so a leading zero is insignificant: `01` and `1` are the same
parameter). -/
def parseParam (cs : List Char) : Option Nat :=
  if cs = [] then none
  else if cs.all (fun c => c.isDigit) then
    some (cs.foldl (fun acc c => acc * 10 + (c.toNat - 48)) 0)
  else none

/-- Parse an ANSI SGR escape sequence `ESC [ p1 ; ... ; pn m` into its
numeric parameter list: the rendered meaning of the sequence.  Two
sequences with the same parameter list select the same rendering. -/
def sgrParams (s : String) : Option (List Nat) :=
  match s.data with
  | '\x1b' :: '[' :: rest =>
      match rest.reverse with
      | 'm' :: mid => (splitSemis mid.reverse).mapM parseParam
      | _ => none
  | _ => none

/-! ### Interleaved first-time calls (two threads)

`get_logger`'s first-time setup is a check (`if not logger.handlers`)
followed by attaching the sinks, with no lock in between; a thread switch
may occur between the two.  The model below runs two threads, each
executing the check (program counter 0) and then, only if its check saw no
handlers, the attach step (program counter 1), on a shared handler
list. -/

/-- Shared state of two threads racing through `get_logger`'s
check-then-attach for one logger: the logger's handler list and each
thread's program counter (0 = before check, 1 = check saw no handlers,
2 = done). -/
structure RaceState where
  handlers : List Handler
  pc0 : Nat
  pc1 : Nat
deriving DecidableEq, Repr

/-- One atomic action of thread `t` (`false` = thread 0, `true` =
thread 1): the check, or the attach of the console and file sinks exactly
as `get_logger` builds them. -/
def raceStep (lvl : Nat) (logfile : String) (t : Bool) (s : RaceState) :
    RaceState :=
  let pc := if t then s.pc1 else s.pc0
  let next :=
    if pc = 0 then (s.handlers, if s.handlers = [] then 1 else 2)
    else if pc = 1 then
      (s.handlers ++ [consoleHandlerDef lvl, fileHandlerDef lvl logfile], 2)
    else (s.handlers, pc)
  { handlers := next.1,
    pc0 := if t then s.pc0 else next.2,
    pc1 := if t then next.2 else s.pc1 }

/-- Run a schedule (list of thread choices) from a state. -/
def runSched (lvl : Nat) (logfile : String) (sched : List Bool)
    (s : RaceState) : RaceState :=
  sched.foldl (fun acc t => raceStep lvl logfile t acc) s

/-! ### Concrete fixtures used to evaluate the theorems -/

/-- A record whose message is 150 characters long. -/
def rec150 : LogRecord :=
  { name := "app", levelno := 20, levelname := "INFO", funcName := "main",
    created := { year := 2026, month := 1, day := 2, hour := 3, minute := 4,
                 second := 5 },
    msg := String.mk (List.replicate 150 'a'), args := none }

/-- A record whose message contains a 4-byte Unicode character. -/
def recEmoji : LogRecord :=
  { name := "app", levelno := 40, levelname := "ERROR", funcName := "send",
    created := { year := 2026, month := 10, day := 12, hour := 23, minute := 59,
                 second := 1 },
    msg := "deploy 🚀 done", args := none }

/-- A logger pre-configured by code outside this module (one custom
handler already attached). -/
def extLogger : Logger :=
  { name := "ext", level := 25,
    handlers := [{ kind := .custom "third-party", level := 5,
                   formatter := .plain "%(message)s" "" }] }

/-- The logger produced by a first `get_logger "app"` call in a default
environment. -/
def cfgLogger : Logger :=
  { name := "app", level := 10,
    handlers := [consoleHandlerDef 10, fileHandlerDef 10 "combined.log"] }

/-! ## Lemmas -/

set_option maxRecDepth 100000

/-- Decidable equality for `Except`, needed to evaluate the embedded
operations on concrete inputs. -/
instance {ε α : Type} [DecidableEq ε] [DecidableEq α] :
    DecidableEq (Except ε α) := fun
  | .error e1, .error e2 =>
      if h : e1 = e2 then isTrue (by rw [h])
      else isFalse (fun he => h (Except.error.inj he))
  | .error _, .ok _ => isFalse (fun he => Except.noConfusion he)
  | .ok _, .error _ => isFalse (fun he => Except.noConfusion he)
  | .ok a1, .ok a2 =>
      if h : a1 = a2 then isTrue (by rw [h])
      else isFalse (fun he => h (Except.ok.inj he))

lemma applyFmt_base (r : LogRecord) :
    applyFmt BASE_FORMAT r = renderBase r r.getMessage := by
  apply String.ext
  simp [applyFmt, BASE_FORMAT, renderBase, substAux, fieldValue]

lemma applyFmt_grey (r : LogRecord) :
    applyFmt (ASCIIFormatter.grey ++ BASE_FORMAT ++ ASCIIFormatter.reset) r =
      ASCIIFormatter.grey ++ renderBase r r.getMessage ++ ASCIIFormatter.reset := by
  apply String.ext
  simp [applyFmt, BASE_FORMAT, renderBase, substAux, fieldValue,
    ASCIIFormatter.grey, ASCIIFormatter.reset]

lemma applyFmt_blue (r : LogRecord) :
    applyFmt (ASCIIFormatter.blue ++ BASE_FORMAT ++ ASCIIFormatter.reset) r =
      ASCIIFormatter.blue ++ renderBase r r.getMessage ++ ASCIIFormatter.reset := by
  apply String.ext
  simp [applyFmt, BASE_FORMAT, renderBase, substAux, fieldValue,
    ASCIIFormatter.blue, ASCIIFormatter.reset]

lemma applyFmt_yellow (r : LogRecord) :
    applyFmt (ASCIIFormatter.yellow ++ BASE_FORMAT ++ ASCIIFormatter.reset) r =
      ASCIIFormatter.yellow ++ renderBase r r.getMessage ++ ASCIIFormatter.reset := by
  apply String.ext
  simp [applyFmt, BASE_FORMAT, renderBase, substAux, fieldValue,
    ASCIIFormatter.yellow, ASCIIFormatter.reset]

lemma applyFmt_red (r : LogRecord) :
    applyFmt (ASCIIFormatter.red ++ BASE_FORMAT ++ ASCIIFormatter.reset) r =
      ASCIIFormatter.red ++ renderBase r r.getMessage ++ ASCIIFormatter.reset := by
  apply String.ext
  simp [applyFmt, BASE_FORMAT, renderBase, substAux, fieldValue,
    ASCIIFormatter.red, ASCIIFormatter.reset]

lemma applyFmt_bold_red (r : LogRecord) :
    applyFmt (ASCIIFormatter.bold_red ++ BASE_FORMAT ++ ASCIIFormatter.reset) r =
      ASCIIFormatter.bold_red ++ renderBase r r.getMessage ++ ASCIIFormatter.reset := by
  apply String.ext
  simp [applyFmt, BASE_FORMAT, renderBase, substAux, fieldValue,
    ASCIIFormatter.bold_red, ASCIIFormatter.reset]

lemma empty_append_str (s : String) : "" ++ s = s := by
  apply String.ext; simp

lemma append_empty_str (s : String) : s ++ "" = s := by
  apply String.ext; simp

lemma format_lookup (n : Nat) (rc : LogRecord) :
    applyFmt ((alookup ASCIIFormatter.FORMATS n).getD BASE_FORMAT) rc =
      colorOfLevel n ++ renderBase rc rc.getMessage ++ resetOfLevel n := by
  by_cases h10 : n = 10
  · simp [ASCIIFormatter.FORMATS, alookup, h10, colorOfLevel, resetOfLevel,
      applyFmt_grey]
  by_cases h20 : n = 20
  · simp [ASCIIFormatter.FORMATS, alookup, h10, h20, colorOfLevel, resetOfLevel,
      applyFmt_blue]
  by_cases h30 : n = 30
  · simp [ASCIIFormatter.FORMATS, alookup, h10, h20, h30, colorOfLevel,
      resetOfLevel, applyFmt_yellow]
  by_cases h40 : n = 40
  · simp [ASCIIFormatter.FORMATS, alookup, h10, h20, h30, h40, colorOfLevel,
      resetOfLevel, applyFmt_red]
  by_cases h50 : n = 50
  · simp [ASCIIFormatter.FORMATS, alookup, h10, h20, h30, h40, h50, colorOfLevel,
      resetOfLevel, applyFmt_bold_red]
  · have h10x : ¬(10 = n) := fun e => h10 e.symm
    have h20x : ¬(20 = n) := fun e => h20 e.symm
    have h30x : ¬(30 = n) := fun e => h30 e.symm
    have h40x : ¬(40 = n) := fun e => h40 e.symm
    have h50x : ¬(50 = n) := fun e => h50 e.symm
    simp [ASCIIFormatter.FORMATS, alookup, h10, h20, h30, h40, h50,
      h10x, h20x, h30x, h40x, h50x, colorOfLevel, resetOfLevel,
      applyFmt_base, empty_append_str, append_empty_str]

lemma format_eq (r : LogRecord) :
    ASCIIFormatter.format r =
      (applyFmt ((alookup ASCIIFormatter.FORMATS r.levelno).getD BASE_FORMAT)
        (if r.getMessage.length > ASCIIFormatter.max_message_length then
          { r with
              msg := r.getMessage.take ASCIIFormatter.max_message_length ++ "...",
              args := none }
        else r), r) := by
  simp only [ASCIIFormatter.format]
  by_cases h : r.getMessage.length > ASCIIFormatter.max_message_length
  · simp [h]
  · simp [h]

lemma alookup_aupdate_self {β : Type} (l : List (String × β)) (n : String)
    (v : β) : alookup (aupdate l n v) n = some v := by
  induction l with
  | nil => simp [aupdate, alookup]
  | cons p rest ih =>
      by_cases h : p.1 = n
      · simp [aupdate, alookup, h]
      · simp [aupdate, alookup, h, ih]

lemma aupdate_of_lookup {β : Type} (l : List (String × β)) (n : String)
    (v : β) (h : alookup l n = some v) : aupdate l n v = l := by
  induction l with
  | nil => simp [alookup] at h
  | cons p rest ih =>
      by_cases hp : p.1 = n
      · rw [alookup] at h
        rw [if_pos hp] at h
        cases p
        cases h
        simp_all [aupdate]
      · rw [alookup] at h
        rw [if_neg hp] at h
        simp [aupdate, hp, ih h]

lemma alookup_mem {β : Type} (l : List (String × β)) (n : String) (v : β)
    (h : alookup l n = some v) : (n, v) ∈ l := by
  induction l with
  | nil => simp [alookup] at h
  | cons p rest ih =>
      by_cases hp : p.1 = n
      · rw [alookup] at h
        rw [if_pos hp] at h
        cases p
        cases h
        simp_all
      · rw [alookup] at h
        rw [if_neg hp] at h
        exact List.mem_cons_of_mem _ (ih h)

lemma alookup_none {α β : Type} [DecidableEq α] (l : List (α × β)) (k : α)
    (h : k ∉ l.map Prod.fst) : alookup l k = none := by
  induction l with
  | nil => rfl
  | cons p rest ih =>
      simp only [List.map_cons, List.mem_cons] at h
      push_neg at h
      rw [alookup, if_neg (fun e => h.1 e.symm)]
      exact ih h.2

lemma mem_makedirsChain_self (fuel : Nat) (d : String) (hd : d ≠ "") :
    d ∈ makedirsChain (fuel + 1) d := by
  rw [makedirsChain, if_neg hd]
  simp

lemma configure_ok (env : Env) (fault : String → Bool) (lg : Logger)
    (fs : List String) (lvl : Nat) (fs1 : List String)
    (hlvl : resolved_level env.LOG_LEVEL = .ok lvl)
    (hdir : try_create_dir fault fs (env.LOG_FILE.getD "combined.log") = .ok fs1) :
    configure_logger env fault lg fs = .ok
      ({ lg with
          level := lvl,
          handlers := lg.handlers ++ [consoleHandlerDef lvl] ++
            [fileHandlerDef lvl (env.LOG_FILE.getD "combined.log")] },
       fs1,
       [.envRead "LOG_LEVEL", .envRead "LOG_FILE"] ++
         (if dirname (env.LOG_FILE.getD "combined.log") ≠ "" then
           [.mkdir (dirname (env.LOG_FILE.getD "combined.log"))] else [])) := by
  unfold configure_logger
  rw [hlvl]
  simp [hdir]

lemma configure_name (env : Env) (fault : String → Bool) (lg L : Logger)
    (fs fs1 : List String) (tr : List Effect)
    (h : configure_logger env fault lg fs = .ok (L, fs1, tr)) :
    L.name = lg.name := by
  unfold configure_logger at h
  cases hres : resolved_level env.LOG_LEVEL with
  | error e => rw [hres] at h; cases h
  | ok lvl =>
      rw [hres] at h
      simp only at h
      cases hdir : try_create_dir fault fs (env.LOG_FILE.getD "combined.log") with
      | error e => rw [hdir] at h; cases h
      | ok fs2 =>
          rw [hdir] at h
          simp only at h
          cases h
          rfl

lemma get_logger_configured (env : Env) (fault : String → Bool)
    (caller : Option String) (name : String) (st : LoggingState) (L : Logger)
    (h : alookup st.loggers (resolve_name name caller) = some L)
    (hne : L.handlers ≠ []) :
    get_logger env fault caller name st = .ok (L, st, []) := by
  simp only [get_logger]
  rw [h]
  simp only [Option.getD_some]
  rw [if_neg hne]
  rw [aupdate_of_lookup _ _ _ h]

lemma get_logger_fresh (env : Env) (fault : String → Bool)
    (caller : Option String) (name : String) (st : LoggingState)
    (lvl : Nat) (fs1 : List String)
    (hfresh : ∀ L0, alookup st.loggers (resolve_name name caller) = some L0 →
      L0.handlers = [])
    (hlvl : resolved_level env.LOG_LEVEL = .ok lvl)
    (hdir : try_create_dir fault st.fs (env.LOG_FILE.getD "combined.log") = .ok fs1) :
    ∃ nm : String,
      get_logger env fault caller name st = .ok
        ({ name := nm, level := lvl,
           handlers := [consoleHandlerDef lvl,
             fileHandlerDef lvl (env.LOG_FILE.getD "combined.log")] },
         { loggers := aupdate st.loggers (resolve_name name caller)
             { name := nm, level := lvl,
               handlers := [consoleHandlerDef lvl,
                 fileHandlerDef lvl (env.LOG_FILE.getD "combined.log")] },
           fs := fs1 },
         [.envRead "LOG_LEVEL", .envRead "LOG_FILE"] ++
           (if dirname (env.LOG_FILE.getD "combined.log") ≠ "" then
             [.mkdir (dirname (env.LOG_FILE.getD "combined.log"))] else [])) := by
  simp only [get_logger]
  cases hl : alookup st.loggers (resolve_name name caller) with
  | none =>
      refine ⟨resolve_name name caller, ?_⟩
      simp only [Option.getD_none, if_true]
      rw [configure_ok env fault _ st.fs lvl fs1 hlvl hdir]
      simp
  | some L0 =>
      refine ⟨L0.name, ?_⟩
      have hemp := hfresh L0 hl
      simp only [Option.getD_some]
      rw [if_pos hemp]
      rw [configure_ok env fault _ st.fs lvl fs1 hlvl hdir]
      simp [hemp]

lemma callN_stable (env : Env) (fault : String → Bool)
    (caller : Option String) (name : String) (st : LoggingState) (L : Logger)
    (h : get_logger env fault caller name st = .ok (L, st, [])) :
    ∀ k, callN env fault caller name k st = .ok (List.replicate k L, st) := by
  intro k
  induction k with
  | zero => simp [callN]
  | succ k ih => rw [callN, h]; simp [ih, List.replicate_succ]

lemma digitChar_mod_isDigit (n : Nat) : (Nat.digitChar (n % 10)).isDigit = true := by
  have h : n % 10 < 10 := Nat.mod_lt _ (by decide)
  set m := n % 10 with hm
  interval_cases m <;> decide

lemma digitChar_mod_ne_esc (n : Nat) : (Nat.digitChar (n % 10) != '\x1b') = true := by
  have h : n % 10 < 10 := Nat.mod_lt _ (by decide)
  set m := n % 10 with hm
  interval_cases m <;> decide

lemma timestampShape_formatDate (t : DateTime) :
    timestampShape (formatDate t) = true := by
  simp [timestampShape, formatDate, pad4, pad2, String.data_append,
    digitChar_mod_isDigit]

lemma formatDate_esc_free (t : DateTime) :
    ((formatDate t).data.all (fun c => c != '\x1b')) = true := by
  simp [formatDate, pad4, pad2, String.data_append, digitChar_mod_ne_esc]

lemma get_logger_name (env : Env) (fault : String → Bool)
    (caller : Option String) (name : String) (st : LoggingState)
    (L : Logger) (st1 : LoggingState) (tr : List Effect)
    (hwf : ∀ p ∈ st.loggers, (p.2 : Logger).name = p.1)
    (h : get_logger env fault caller name st = .ok (L, st1, tr)) :
    L.name = resolve_name name caller := by
  simp only [get_logger] at h
  cases hl : alookup st.loggers (resolve_name name caller) with
  | none =>
      rw [hl] at h
      simp only [Option.getD_none, if_true] at h
      cases hc : configure_logger env fault
          { name := resolve_name name caller, level := 0, handlers := [] }
          st.fs with
      | error e => rw [hc] at h; cases h
      | ok res =>
          obtain ⟨lg, fs1, tr1⟩ := res
          rw [hc] at h
          simp only at h
          injection h with h
          injection h with h1 h2
          subst h1
          exact configure_name _ _ _ _ _ _ _ hc
  | some L0 =>
      rw [hl] at h
      simp only [Option.getD_some] at h
      have hn : L0.name = resolve_name name caller :=
        hwf _ (alookup_mem _ _ _ hl)
      by_cases hh : L0.handlers = []
      · rw [if_pos hh] at h
        cases hc : configure_logger env fault L0 st.fs with
        | error e => rw [hc] at h; cases h
        | ok res =>
            obtain ⟨lg, fs1, tr1⟩ := res
            rw [hc] at h
            simp only at h
            injection h with h
            injection h with h1 h2
            subst h1
            rw [configure_name _ _ _ _ _ _ _ hc]
            exact hn
      · rw [if_neg hh] at h
        injection h with h
        injection h with h1 h2
        subst h1
        exact hn

/-! ## Claim theorems -/

/-- C1: for every name, starting from a state in which that name is not
yet configured, a succeeding first `get_logger` call attaches exactly one
console (stream) sink and exactly one file sink, and every further call
(any k ≥ 1 in total) returns the very same logger with the state
unchanged — no duplicate sinks are ever attached. -/
theorem idempotent_singleton (env : Env) (fault : String → Bool)
    (caller : Option String) (name : String) (st : LoggingState)
    (lvl : Nat) (fs1 : List String) (L : Logger) (st1 : LoggingState)
    (tr : List Effect)
    (hfresh : ∀ L0, alookup st.loggers (resolve_name name caller) = some L0 →
      L0.handlers = [])
    (hlvl : resolved_level env.LOG_LEVEL = .ok lvl)
    (hdir : try_create_dir fault st.fs (env.LOG_FILE.getD "combined.log") = .ok fs1)
    (hmain : get_logger env fault caller name st = .ok (L, st1, tr)) :
    L.handlers.countP Handler.isStream = 1 ∧
    L.handlers.countP Handler.isFile = 1 ∧
    ∀ k, callN env fault caller name (k + 1) st =
      .ok (List.replicate (k + 1) L, st1) := by
  obtain ⟨nm, hres⟩ :=
    get_logger_fresh env fault caller name st lvl fs1 hfresh hlvl hdir
  rw [hres] at hmain
  injection hmain with hmain
  injection hmain with h1 h2
  injection h2 with h2 h3
  subst h1
  subst h2
  subst h3
  refine ⟨?_, ?_, ?_⟩
  · simp [List.countP_cons, List.countP_nil, consoleHandlerDef, fileHandlerDef,
      Handler.isStream]
  · simp [List.countP_cons, List.countP_nil, consoleHandlerDef, fileHandlerDef,
      Handler.isFile]
  · intro k
    have hconf := get_logger_configured env fault caller name
      { loggers := aupdate st.loggers (resolve_name name caller)
          { name := nm, level := lvl,
            handlers := [consoleHandlerDef lvl,
              fileHandlerDef lvl (env.LOG_FILE.getD "combined.log")] },
        fs := fs1 }
      { name := nm, level := lvl,
        handlers := [consoleHandlerDef lvl,
          fileHandlerDef lvl (env.LOG_FILE.getD "combined.log")] }
      (alookup_aupdate_self _ _ _) (by simp)
    rw [callN, hres]
    simp only [callN_stable env fault caller name _ _ hconf k]
    simp [List.replicate_succ]

/-- C1 witness: three calls for the name `app` on a fresh state all yield
the configured logger, which carries one console and one file sink. -/
theorem idempotent_singleton_witness :
    cfgLogger.handlers.countP Handler.isStream = 1 ∧
    cfgLogger.handlers.countP Handler.isFile = 1 ∧
    callN { LOG_LEVEL := none, LOG_FILE := none } (fun _ => false) none "app" 3
        { loggers := [], fs := [] } =
      .ok (List.replicate 3 cfgLogger,
        { loggers := [("app", cfgLogger)], fs := [] }) := by
  have h := idempotent_singleton { LOG_LEVEL := none, LOG_FILE := none }
    (fun _ => false) none "app" { loggers := [], fs := [] } 10 [] cfgLogger
    { loggers := [("app", cfgLogger)], fs := [] }
    [.envRead "LOG_LEVEL", .envRead "LOG_FILE"]
    (fun L0 h0 => by simp [alookup] at h0) (by decide) (by decide) (by decide)
  exact ⟨h.1, h.2.1, h.2.2 2⟩

/-- C2: the console formatter renders the record in the level's color
with the base template, with the message body truncated to its first 100
characters plus an ellipsis exactly when it exceeds 100 characters, and
unmodified otherwise. -/
theorem console_truncation (r : LogRecord) :
    (ASCIIFormatter.format r).1 =
      colorOfLevel r.levelno ++ renderBase r (truncatePolicy r.getMessage) ++
        resetOfLevel r.levelno := by
  rw [format_eq]
  by_cases h : r.getMessage.length > ASCIIFormatter.max_message_length
  · rw [if_pos h]
    dsimp only
    rw [format_lookup]
    have hmsg : ({ r with
        msg := r.getMessage.take ASCIIFormatter.max_message_length ++ "...",
        args := none } : LogRecord).getMessage =
          r.getMessage.take 100 ++ "..." := by
      simp [LogRecord.getMessage, ASCIIFormatter.max_message_length]
    rw [hmsg]
    have htr : truncatePolicy r.getMessage = r.getMessage.take 100 ++ "..." := by
      rw [truncatePolicy, if_pos]
      simpa [ASCIIFormatter.max_message_length] using h
    rw [htr]
    simp [renderBase]
  · rw [if_neg h]
    dsimp only
    rw [format_lookup]
    have htr : truncatePolicy r.getMessage = r.getMessage := by
      rw [truncatePolicy, if_neg]
      simpa [ASCIIFormatter.max_message_length] using h
    rw [htr]

/-- C3: the console formatter never mutates the record it is given (the
second component of `ASCIIFormatter.format` is the post-call state of the
original record), so when the console and file sinks process a record in
order, the file sink still renders the full untruncated message. -/
theorem truncation_nondestructive (r : LogRecord) (lvl : Nat) (path : String) :
    (ASCIIFormatter.format r).2 = r ∧
    (lvl ≤ r.levelno →
      callHandlers [consoleHandlerDef lvl, fileHandlerDef lvl path] r =
        ([(ASCIIFormatter.format r).1 ++ "\n",
          renderBase r r.getMessage ++ "\n"], r)) := by
  constructor
  · rw [format_eq]
  · intro h
    simp [callHandlers, Handler.emit, Handler.fmtRecord, consoleHandlerDef,
      fileHandlerDef, h, format_eq, applyFmt_base]

/-- C3 witness: a 150-character message is truncated to 100 characters
plus an ellipsis on the console while the file line keeps all 150
characters. -/
theorem truncation_nondestructive_witness :
    rec150.getMessage.length = 150 ∧
    callHandlers [consoleHandlerDef 10,
        fileHandlerDef 10 "combined.log"] rec150 =
      ([(ASCIIFormatter.format rec150).1 ++ "\n",
        renderBase rec150 rec150.getMessage ++ "\n"], rec150) ∧
    (ASCIIFormatter.format rec150).1 =
      ASCIIFormatter.blue ++
        renderBase rec150 (String.mk (List.replicate 100 'a') ++ "...") ++
        ASCIIFormatter.reset := by
  refine ⟨by decide,
    (truncation_nondestructive rec150 10 "combined.log").2 (by decide),
    by decide⟩

/-- C4 counterexample: `LOG_LEVEL=warn` is not one of the five severity
names, yet the code resolves it to WARNING (30) instead of falling back to
DEBUG (10); `LOG_LEVEL=basic_format` makes `get_logger` raise a
`ValueError` to the caller instead of falling back; and
`LOG_LEVEL=_styles` makes it raise a `TypeError`. -/
theorem log_level_warn_not_debug :
    (pyUpper "warn" = "WARN" ∧ ("WARN" : String) ≠ "DEBUG" ∧
      ("WARN" : String) ≠ "INFO" ∧ ("WARN" : String) ≠ "WARNING" ∧
      ("WARN" : String) ≠ "ERROR" ∧ ("WARN" : String) ≠ "CRITICAL") ∧
    (get_logger { LOG_LEVEL := some "warn", LOG_FILE := none } (fun _ => false)
        none "app" { loggers := [], fs := [] }).map (fun x => x.1.level) =
      .ok 30 ∧
    get_logger { LOG_LEVEL := some "basic_format", LOG_FILE := none }
        (fun _ => false) none "app" { loggers := [], fs := [] } =
      .error (.valueError
        ("Unknown level: " ++ pyReprStr "%(levelname)s:%(name)s:%(message)s")) ∧
    raisesTypeError (get_logger { LOG_LEVEL := some "_styles", LOG_FILE := none }
        (fun _ => false) none "app" { loggers := [], fs := [] }) = true := by
  decide

/-- C4 (amended): level resolution goes through
`getattr(logging, value.upper(), DEBUG)`, so the five severity names
resolve case-insensitively to their levels, the extra uppercase attributes
WARN, FATAL and NOTSET resolve to 30, 50 and 0, BASIC_FORMAT resolves to a
string and makes `setLevel` raise `ValueError`, the `_STYLES` dict makes
it raise `TypeError`, every value hitting no uppercase attribute of the
`logging` module falls back to DEBUG, the variable being unset means
DEBUG, and the resolved level is applied to the logger and both sinks. -/
theorem log_level_resolution (s : String) (env : Env) (fault : String → Bool)
    (lg : Logger) (fs : List String) :
    resolved_level none = .ok 10 ∧
    (pyUpper s = "DEBUG" → resolved_level (some s) = .ok 10) ∧
    (pyUpper s = "INFO" → resolved_level (some s) = .ok 20) ∧
    (pyUpper s = "WARNING" → resolved_level (some s) = .ok 30) ∧
    (pyUpper s = "ERROR" → resolved_level (some s) = .ok 40) ∧
    (pyUpper s = "CRITICAL" → resolved_level (some s) = .ok 50) ∧
    (pyUpper s = "WARN" → resolved_level (some s) = .ok 30) ∧
    (pyUpper s = "FATAL" → resolved_level (some s) = .ok 50) ∧
    (pyUpper s = "NOTSET" → resolved_level (some s) = .ok 0) ∧
    (pyUpper s = "BASIC_FORMAT" → resolved_level (some s) =
      .error (.valueError
        ("Unknown level: " ++ pyReprStr "%(levelname)s:%(name)s:%(message)s"))) ∧
    (pyUpper s = "_STYLES" →
      ∃ m, resolved_level (some s) = .error (.typeError m)) ∧
    (pyUpper s ∉ loggingUppercaseAttrs.map Prod.fst →
      resolved_level (some s) = .ok 10) ∧
    (∀ lvl L fs1 tr, configure_logger env fault lg fs = .ok (L, fs1, tr) →
      resolved_level env.LOG_LEVEL = .ok lvl →
      L.level = lvl ∧
      L.handlers = lg.handlers ++ [consoleHandlerDef lvl] ++
        [fileHandlerDef lvl (env.LOG_FILE.getD "combined.log")] ∧
      (consoleHandlerDef lvl).level = lvl ∧
      (fileHandlerDef lvl (env.LOG_FILE.getD "combined.log")).level = lvl) := by
  refine ⟨by decide, ?_, ?_, ?_, ?_, ?_, ?_, ?_, ?_, ?_, ?_, ?_, ?_⟩
  · intro h
    simp [resolved_level, h, getattrLoggingD, loggingUppercaseAttrs, alookup,
      checkLevel, nameToLevel]
  · intro h
    simp [resolved_level, h, getattrLoggingD, loggingUppercaseAttrs, alookup,
      checkLevel, nameToLevel]
  · intro h
    simp [resolved_level, h, getattrLoggingD, loggingUppercaseAttrs, alookup,
      checkLevel, nameToLevel]
  · intro h
    simp [resolved_level, h, getattrLoggingD, loggingUppercaseAttrs, alookup,
      checkLevel, nameToLevel]
  · intro h
    simp [resolved_level, h, getattrLoggingD, loggingUppercaseAttrs, alookup,
      checkLevel, nameToLevel]
  · intro h
    simp [resolved_level, h, getattrLoggingD, loggingUppercaseAttrs, alookup,
      checkLevel, nameToLevel]
  · intro h
    simp [resolved_level, h, getattrLoggingD, loggingUppercaseAttrs, alookup,
      checkLevel, nameToLevel]
  · intro h
    simp [resolved_level, h, getattrLoggingD, loggingUppercaseAttrs, alookup,
      checkLevel, nameToLevel]
  · intro h
    simp [resolved_level, h, getattrLoggingD, loggingUppercaseAttrs, alookup,
      checkLevel, nameToLevel]
  · intro h
    refine ⟨"Level not an integer or a valid string: " ++ "_STYLES", ?_⟩
    simp [resolved_level, h, getattrLoggingD, loggingUppercaseAttrs, alookup,
      checkLevel]
  · intro h
    rw [resolved_level]
    simp only [Option.getD_some]
    rw [getattrLoggingD, alookup_none _ _ h]
    decide
  · intro lvl L fs1 tr hcfg hres
    unfold configure_logger at hcfg
    rw [hres] at hcfg
    simp only at hcfg
    cases hdir : try_create_dir fault fs (env.LOG_FILE.getD "combined.log") with
    | error e => rw [hdir] at hcfg; cases hcfg
    | ok fs2 =>
        rw [hdir] at hcfg
        simp only at hcfg
        injection hcfg with hcfg
        injection hcfg with h1 h2
        subst h1
        exact ⟨rfl, by simp, rfl, rfl⟩

/-- C4 witness: concrete evaluations of the amended behaviour, including
the raised errors and the configured logger and sinks carrying the
resolved level. -/
theorem log_level_resolution_witness :
    resolved_level none = .ok 10 ∧
    resolved_level (some "Error") = .ok 40 ∧
    resolved_level (some "warn") = .ok 30 ∧
    resolved_level (some "garbage") = .ok 10 ∧
    resolved_level (some "basic_format") =
      .error (.valueError
        ("Unknown level: " ++ pyReprStr "%(levelname)s:%(name)s:%(message)s")) ∧
    raisesTypeError (resolved_level (some "_styles")) = true ∧
    configure_logger { LOG_LEVEL := some "Error", LOG_FILE := some "app.log" }
        (fun _ => false) { name := "app", level := 0, handlers := [] } [] =
      .ok ({ name := "app", level := 40,
             handlers := [consoleHandlerDef 40, fileHandlerDef 40 "app.log"] },
           [], [.envRead "LOG_LEVEL", .envRead "LOG_FILE"]) ∧
    ({ name := "app", level := 40,
       handlers := [consoleHandlerDef 40, fileHandlerDef 40 "app.log"] } :
      Logger).level = 40 := by
  have h := log_level_resolution "Error"
    { LOG_LEVEL := some "Error", LOG_FILE := some "app.log" }
    (fun _ => false) { name := "app", level := 0, handlers := [] } []
  have h2 := log_level_resolution "warn" { LOG_LEVEL := none, LOG_FILE := none }
    (fun _ => false) { name := "app", level := 0, handlers := [] } []
  have h3 := log_level_resolution "garbage"
    { LOG_LEVEL := none, LOG_FILE := none }
    (fun _ => false) { name := "app", level := 0, handlers := [] } []
  have h4 := log_level_resolution "basic_format"
    { LOG_LEVEL := none, LOG_FILE := none }
    (fun _ => false) { name := "app", level := 0, handlers := [] } []
  have h5 := log_level_resolution "_styles"
    { LOG_LEVEL := none, LOG_FILE := none }
    (fun _ => false) { name := "app", level := 0, handlers := [] } []
  obtain ⟨m, hm⟩ := h5.2.2.2.2.2.2.2.2.2.2.1 (by decide)
  have hcfg : configure_logger
      { LOG_LEVEL := some "Error", LOG_FILE := some "app.log" }
      (fun _ => false) { name := "app", level := 0, handlers := [] } [] =
    .ok ({ name := "app", level := 40,
           handlers := [consoleHandlerDef 40, fileHandlerDef 40 "app.log"] },
         [], [.envRead "LOG_LEVEL", .envRead "LOG_FILE"]) := by decide
  have happ := (h.2.2.2.2.2.2.2.2.2.2.2.2) 40
    { name := "app", level := 40,
      handlers := [consoleHandlerDef 40, fileHandlerDef 40 "app.log"] }
    [] [.envRead "LOG_LEVEL", .envRead "LOG_FILE"] hcfg (by decide)
  exact ⟨h.1, h.2.2.2.2.1 (by decide), h2.2.2.2.2.2.2.1 (by decide),
    h3.2.2.2.2.2.2.2.2.2.2.2.1 (by decide), h4.2.2.2.2.2.2.2.2.2.1 (by decide),
    by rw [hm]; rfl, hcfg, happ.1⟩

/-- C5: `try_create_dir` is a no-op when the path has no directory
component; otherwise it creates the parent directory with all ancestors
(succeeding for any prior filesystem contents, in particular when the
directory already exists), and on a creation failure it raises
`SystemExit` with a descriptive message rather than a recoverable
exception. -/
theorem try_create_dir_contract (fault : String → Bool) (fs : List String)
    (path : String) :
    (dirname path = "" → try_create_dir fault fs path = .ok fs) ∧
    (dirname path ≠ "" → fault (dirname path) = false →
      try_create_dir fault fs path =
        .ok (fs ++ makedirsChain ((dirname path).length + 1) (dirname path)) ∧
      dirname path ∈
        fs ++ makedirsChain ((dirname path).length + 1) (dirname path) ∧
      ∀ d ∈ fs,
        d ∈ fs ++ makedirsChain ((dirname path).length + 1) (dirname path)) ∧
    (dirname path ≠ "" → fault (dirname path) = true →
      try_create_dir fault fs path =
        .error (.systemExit
          ("Failed to create directory: " ++
            ("cannot create " ++ dirname path)))) := by
  refine ⟨?_, ?_, ?_⟩
  · intro h
    simp [try_create_dir, h]
  · intro h hf
    refine ⟨?_, ?_, ?_⟩
    · simp [try_create_dir, h, makedirs, hf]
    · exact List.mem_append_right _ (mem_makedirsChain_self _ _ h)
    · intro d hd
      exact List.mem_append_left _ hd
  · intro h hf
    simp [try_create_dir, h, makedirs, hf, PyErr.text]

/-- C5 witness: a bare filename is a no-op, a nested path creates the
directory (also when it already exists), and an injected failure raises
`SystemExit`. -/
theorem try_create_dir_contract_witness :
    try_create_dir (fun _ => false) ["logs"] "combined.log" = .ok ["logs"] ∧
    try_create_dir (fun _ => false) ["logs"] "logs/app.log" =
      .ok (["logs"] ++ makedirsChain ((dirname "logs/app.log").length + 1)
        (dirname "logs/app.log")) ∧
    try_create_dir (fun _ => true) [] "logs/app.log" =
      .error (.systemExit
        ("Failed to create directory: " ++
          ("cannot create " ++ dirname "logs/app.log"))) := by
  refine ⟨(try_create_dir_contract (fun _ => false) ["logs"] "combined.log").1
      (by decide),
    ((try_create_dir_contract (fun _ => false) ["logs"] "logs/app.log").2.1
      (by decide) (by decide)).1,
    (try_create_dir_contract (fun _ => true) [] "logs/app.log").2.2
      (by decide) (by decide)⟩

/-- C6: for every record at or above its level, the file sink emits one
line in the exact format `LEVEL (YYYY-MM-DD HH:MM:SS) [name: NAME func:
FUNCTION] MESSAGE`, is configured with UTF-8 encoding, leaves the record
unchanged, truncates nothing, and introduces no ANSI escape
character. -/
theorem file_sink_line (lvl : Nat) (logfile : String) (r : LogRecord)
    (h : lvl ≤ r.levelno) :
    (fileHandlerDef lvl logfile).kind = .file logfile "utf-8" ∧
    (fileHandlerDef lvl logfile).emit r =
      some (r.levelname ++ " (" ++ formatDate r.created ++ ") [name: " ++
        r.name ++ " func: " ++ r.funcName ++ "] " ++ r.getMessage ++ "\n", r) ∧
    timestampShape (formatDate r.created) = true ∧
    (r.levelname.data.all (fun c => c != '\x1b') = true →
     r.name.data.all (fun c => c != '\x1b') = true →
     r.funcName.data.all (fun c => c != '\x1b') = true →
     r.getMessage.data.all (fun c => c != '\x1b') = true →
     ((r.levelname ++ " (" ++ formatDate r.created ++ ") [name: " ++ r.name ++
       " func: " ++ r.funcName ++ "] " ++ r.getMessage ++ "\n").data.all
        (fun c => c != '\x1b')) = true) := by
  refine ⟨rfl, ?_, timestampShape_formatDate _, ?_⟩
  · simp [Handler.emit, Handler.fmtRecord, fileHandlerDef, h, applyFmt_base,
      renderBase]
  · intro h1 h2 h3 h4
    simp [String.data_append, List.all_append, h1, h2, h3, h4,
      formatDate_esc_free]

/-- C6 witness: a record carrying an emoji is formatted without failure
into the exact expected line. -/
theorem file_sink_line_witness :
    (10 ≤ recEmoji.levelno) ∧
    (fileHandlerDef 10 "combined.log").emit recEmoji =
      some ("ERROR (2026-10-12 23:59:01) [name: app func: send] deploy 🚀 done\n",
        recEmoji) ∧
    timestampShape (formatDate recEmoji.created) = true := by
  have h := file_sink_line 10 "combined.log" recEmoji (by decide)
  refine ⟨by decide, ?_, h.2.2.1⟩
  rw [h.2.1]
  decide

/-- C7 counterexample: the ERROR prefix `ESC[31;01m` and the CRITICAL
prefix `ESC[31;1m` are different strings but parse to the same SGR
parameter list, i.e. they render as the same color — the five colors are
not pairwise distinct as rendered. -/
theorem ansi_error_critical_same_color :
    alookup ASCIIFormatter.FORMATS 40 =
      some (ASCIIFormatter.red ++ BASE_FORMAT ++ ASCIIFormatter.reset) ∧
    alookup ASCIIFormatter.FORMATS 50 =
      some (ASCIIFormatter.bold_red ++ BASE_FORMAT ++ ASCIIFormatter.reset) ∧
    ASCIIFormatter.red ≠ ASCIIFormatter.bold_red ∧
    sgrParams ASCIIFormatter.red = some [31, 1] ∧
    sgrParams ASCIIFormatter.bold_red = some [31, 1] := by
  decide

/-- C7 (amended): each of the five levels wraps the full base format in
its ANSI prefix with a reset appended; the five prefixes are pairwise
distinct as strings, and pairwise distinct as rendered colors except that
the ERROR and CRITICAL prefixes render identically (both bold red). -/
theorem ansi_color_table :
    (alookup ASCIIFormatter.FORMATS 10 =
      some (ASCIIFormatter.grey ++ BASE_FORMAT ++ ASCIIFormatter.reset)) ∧
    (alookup ASCIIFormatter.FORMATS 20 =
      some (ASCIIFormatter.blue ++ BASE_FORMAT ++ ASCIIFormatter.reset)) ∧
    (alookup ASCIIFormatter.FORMATS 30 =
      some (ASCIIFormatter.yellow ++ BASE_FORMAT ++ ASCIIFormatter.reset)) ∧
    (alookup ASCIIFormatter.FORMATS 40 =
      some (ASCIIFormatter.red ++ BASE_FORMAT ++ ASCIIFormatter.reset)) ∧
    (alookup ASCIIFormatter.FORMATS 50 =
      some (ASCIIFormatter.bold_red ++ BASE_FORMAT ++ ASCIIFormatter.reset)) ∧
    List.Pairwise (fun a b => a ≠ b)
      [ASCIIFormatter.grey, ASCIIFormatter.blue, ASCIIFormatter.yellow,
       ASCIIFormatter.red, ASCIIFormatter.bold_red] ∧
    sgrParams ASCIIFormatter.grey = some [38, 21] ∧
    sgrParams ASCIIFormatter.blue = some [34, 1] ∧
    sgrParams ASCIIFormatter.yellow = some [33, 1] ∧
    sgrParams ASCIIFormatter.red = some [31, 1] ∧
    sgrParams ASCIIFormatter.bold_red = some [31, 1] ∧
    List.Pairwise (fun a b => sgrParams a ≠ sgrParams b)
      [ASCIIFormatter.grey, ASCIIFormatter.blue, ASCIIFormatter.yellow,
       ASCIIFormatter.red] := by
  decide

/-- C8: the resolved logger name is the supplied string when non-empty,
the base filename of the caller's file when empty with frame metadata
available, and the module name otherwise; a logger returned by a
succeeding `get_logger` call carries exactly the resolved name. -/
theorem name_resolution (env : Env) (fault : String → Bool)
    (caller : Option String) (name : String) (st : LoggingState)
    (hwf : ∀ p ∈ st.loggers, (p.2 : Logger).name = p.1) :
    (name ≠ "" → resolve_name name caller = name) ∧
    (∀ f, name = "" → caller = some f → resolve_name name caller = basename f) ∧
    (name = "" → caller = none → resolve_name name caller = "pylo.logger") ∧
    (∀ L st1 tr, get_logger env fault caller name st = .ok (L, st1, tr) →
      L.name = resolve_name name caller) := by
  refine ⟨?_, ?_, ?_, ?_⟩
  · intro h
    simp [resolve_name, h]
  · intro f h hc
    simp [resolve_name, h, hc]
  · intro h hc
    simp [resolve_name, h, hc]
  · intro L st1 tr h
    exact get_logger_name env fault caller name st L st1 tr hwf h

/-- C8 witness: concrete evaluations of the three name-resolution cases
and of the name of a logger returned by a successful call. -/
theorem name_resolution_witness :
    resolve_name "app" none = "app" ∧
    resolve_name "" (some "/src/foo.py") = basename "/src/foo.py" ∧
    basename "/src/foo.py" = "foo.py" ∧
    resolve_name "" none = "pylo.logger" ∧
    ({ name := "app", level := 10,
       handlers := [consoleHandlerDef 10, fileHandlerDef 10 "combined.log"] } :
      Logger).name = resolve_name "app" none := by
  have h := name_resolution { LOG_LEVEL := none, LOG_FILE := none }
    (fun _ => false) none "app" { loggers := [], fs := [] } (by simp)
  have h2 := name_resolution { LOG_LEVEL := none, LOG_FILE := none }
    (fun _ => false) (some "/src/foo.py") "" { loggers := [], fs := [] }
    (by simp)
  have h3 := name_resolution { LOG_LEVEL := none, LOG_FILE := none }
    (fun _ => false) none "" { loggers := [], fs := [] } (by simp)
  refine ⟨h.1 (by decide), h2.2.1 "/src/foo.py" rfl rfl, by decide,
    h3.2.2.1 rfl rfl, ?_⟩
  exact h.2.2.2
    { name := "app", level := 10,
      handlers := [consoleHandlerDef 10, fileHandlerDef 10 "combined.log"] }
    { loggers := [("app",
        { name := "app", level := 10,
          handlers := [consoleHandlerDef 10, fileHandlerDef 10 "combined.log"] })],
      fs := [] }
    [.envRead "LOG_LEVEL", .envRead "LOG_FILE"]
    (by decide)

/-- C9: a logger that already has at least one handler — of any kind,
attached by anyone — is returned exactly as-is: same logger, unchanged
registry and filesystem, and an empty effect trace (no environment read,
no directory creation, no sink attached). -/
theorem preconfigured_logger_untouched (env : Env) (fault : String → Bool)
    (caller : Option String) (name : String) (st : LoggingState) (L : Logger)
    (h : alookup st.loggers (resolve_name name caller) = some L)
    (hne : L.handlers ≠ []) :
    get_logger env fault caller name st = .ok (L, st, []) :=
  get_logger_configured env fault caller name st L h hne

/-- C9 witness: a logger pre-configured elsewhere with a single custom
handler is returned untouched even with a hostile environment and a
failing filesystem. -/
theorem preconfigured_logger_untouched_witness :
    get_logger { LOG_LEVEL := some "ERROR", LOG_FILE := some "other/x.log" }
        (fun _ => true) none "ext"
        { loggers := [("ext", extLogger)], fs := [] } =
      .ok (extLogger, { loggers := [("ext", extLogger)], fs := [] }, []) :=
  preconfigured_logger_untouched _ _ _ _ _ _ (by decide) (by decide)

/-- C10: the check-then-attach sequence is not serialized; under the
interleaving check₀, check₁, attach₀, attach₁ of two first-time calls for
the same name, two console sinks and two file sinks end up attached,
contradicting the required exactly-one-of-each. -/
theorem race_attaches_duplicate_sinks :
    ((runSched 10 "combined.log" [false, true, false, true]
        { handlers := [], pc0 := 0, pc1 := 0 }).handlers.countP
      Handler.isStream = 2) ∧
    ((runSched 10 "combined.log" [false, true, false, true]
        { handlers := [], pc0 := 0, pc1 := 0 }).handlers.countP
      Handler.isFile = 2) := by
  decide

end Pylo
